import Mathlib

/-!
Verification of the OIDC authentication gateway
(`templates/server/auth_oidc.py`) against its specification.

The Python source is shallowly embedded: pure control flow becomes Lean
functions, network effects (JWKS fetch, `jwt.decode`, upstream HTTP calls,
JWE decryption primitives, SHA-256, base64) become explicit parameters or
`Except`-valued oracles supplied by the environment, and mutable state
(the JWKS cache, the client-secret store, the persisted secrets file) is
passed explicitly.
-/

namespace McpAuth

/-- `pre` is a prefix of `l` (structurally recursive, kernel-evaluable). -/
def isPrefixList : List Char → List Char → Bool
  | [], _ => true
  | _ :: _, [] => false
  | a :: as, b :: bs => a = b && isPrefixList as bs

/-- Occurrence of `needle` somewhere in `hay`. -/
def containsSub (hay needle : List Char) : Bool :=
  isPrefixList needle hay ||
    match hay with
    | [] => false
    | _ :: rest => containsSub rest needle

/-- Python `needle in hay` substring test. -/
def strContains (hay needle : String) : Bool :=
  containsSub hay.toList needle.toList

/-- Python `hay.startswith(pre)`. -/
def pyStartsWith (hay pre : String) : Bool :=
  isPrefixList pre.toList hay.toList

/-- Split a character list on a separator character; always returns at
least one (possibly empty) piece, like Python `str.split(sep)`. -/
def splitChars (sep : Char) : List Char → List (List Char)
  | [] => [[]]
  | c :: rest =>
    let r := splitChars sep rest
    if c = sep then [] :: r
    else
      match r with
      | h :: t => (c :: h) :: t
      | [] => [[c]]

/-- Python `s.split('.')`. -/
def pySplitDot (s : String) : List String :=
  (splitChars '.' s.toList).map (fun cs => String.mk cs)

/-- Split a character list on a predicate (each matching character is a
separator). -/
def splitCharsBy (p : Char → Bool) : List Char → List (List Char)
  | [] => [[]]
  | c :: rest =>
    let r := splitCharsBy p rest
    if p c then [] :: r
    else
      match r with
      | h :: t => (c :: h) :: t
      | [] => [[c]]

/-- Python `str.split()` with no argument: split on whitespace runs,
dropping empty pieces. -/
def pySplitWs (s : String) : List String :=
  ((splitCharsBy Char.isWhitespace s.toList).map (fun cs => String.mk cs)).filter
    (fun t => t ≠ "")

/-- Python `str.lower()` (character-wise). -/
def pyLower (s : String) : String :=
  String.mk (s.toList.map Char.toLower)

/-- Python `str.rstrip('/')`. -/
def rstripSlash (s : String) : String :=
  String.mk ((s.toList.reverse.dropWhile (fun c => c = '/')).reverse)

/-- Python truthiness of an optional string: `None` and `""` are falsy. -/
def truthyS : Option String → Bool
  | none => false
  | some v => v ≠ ""

/-- Python `a or b` on optional strings. -/
def pyOrS (a b : Option String) : Option String :=
  if truthyS a then a else b

/-- `self.required_scope = required_scope or config.get("scope") or
os.getenv("OIDC_SCOPE")` (auth_oidc.py line 200).  The `required_scope`
parameter defaults to `"openid"` in the Python signature (line 149), so an
omitted parameter is represented by `some "openid"`. -/
def initRequiredScope (required_scope configScope envScope : Option String) :
    Option String :=
  pyOrS (pyOrS required_scope configScope) envScope

/-- A JWKS document (`response.json()` of the JWKS endpoint), modelled as a
JSON object given by its field list; Python dict truthiness is emptiness. -/
abbrev Jwks := List (String × String)

/-- Python dict truthiness of the cached JWKS (`if self._jwks`). -/
def jwksTruthy : Option Jwks → Bool
  | none => false
  | some j => j ≠ []

/-- The Python exception classes distinguished by the middleware:
`JoseError`, `ValueError`, and anything else (e.g. `httpx` errors). -/
inductive PyErr where
  | joseErr (msg : String)
  | valueErr (msg : String)
  | otherErr (msg : String)
deriving DecidableEq

/-- The `aud` claim: absent, a scalar string, or a list of strings. -/
inductive AudV where
  | absent
  | one (s : String)
  | many (l : List String)
deriving DecidableEq

/-- The `scope` claim: a string (`claims.get('scope', '')` defaults to `""`
when absent) or a list of strings. -/
inductive ScopeV where
  | strv (s : String)
  | listv (l : List String)
deriving DecidableEq

/-- The decoded claim set, restricted to the fields the verifier consults.
`iss` is `claims.get('iss', '')` (absent ≡ `""`). -/
structure Claims where
  iss : String
  aud : AudV
  scope : ScopeV
  sub : Option String
deriving DecidableEq

/-- The configuration fields of `OIDCAuthProvider` that `verify_token`
reads. -/
structure AuthCfg where
  issuer : String
  audience : String
  public_url : Option String
  required_scope : Option String

/-- Environment of one `verify_token` call: the outcome of
`jwks_cache.get_jwks()` and of `jwt.decode(token, jwks)` followed by
`claims.validate()` for the token at hand (both external library calls). -/
structure VerifyEnv where
  fetchJwks : Except PyErr Jwks
  decodeValidate : Jwks → Except PyErr Claims

/-- Issuer check (auth_oidc.py lines 675-689). -/
def checkIssuer (cfg : AuthCfg) (c : Claims) : Except PyErr Unit :=
  let token_issuer := rstripSlash c.iss
  let backend_issuer := rstripSlash cfg.issuer
  let advertised_issuer := cfg.public_url.map rstripSlash
  let valid_issuers := backend_issuer ::
    (match advertised_issuer with
     | some a => if a ≠ backend_issuer then [a] else []
     | none => [])
  if token_issuer ∈ valid_issuers then .ok ()
  else .error (.valueErr ("Invalid issuer. Expected one of " ++
    toString valid_issuers ++ ", got \x27" ++ token_issuer ++ "\x27"))

/-- Audience check (auth_oidc.py lines 691-701); an absent `aud` compares
unequal to the configured audience string. -/
def checkAudience (cfg : AuthCfg) (c : Claims) : Except PyErr Unit :=
  match c.aud with
  | .many l =>
      if cfg.audience ∈ l then .ok ()
      else .error (.valueErr ("Invalid audience. Expected \x27" ++
        cfg.audience ++ "\x27 in " ++ toString l))
  | .one s =>
      if s = cfg.audience then .ok ()
      else .error (.valueErr ("Invalid audience. Expected \x27" ++
        cfg.audience ++ "\x27, got \x27" ++ s ++ "\x27"))
  | .absent =>
      .error (.valueErr ("Invalid audience. Expected \x27" ++
        cfg.audience ++ "\x27, got \x27None\x27"))

/-- Scope check (auth_oidc.py lines 703-720): only performed when
`self.required_scope` is truthy; a string scope claim is split on
whitespace, a list is used as is. -/
def checkScope (cfg : AuthCfg) (c : Claims) : Except PyErr Unit :=
  if truthyS cfg.required_scope then
    let rs := cfg.required_scope.getD ""
    let scopes := match c.scope with
      | .strv s => pySplitWs s
      | .listv l => l
    if rs ∈ scopes then .ok ()
    else .error (.valueErr ("Required scope \x27" ++ rs ++
      "\x27 not found in token. Token has: " ++ toString scopes))
  else .ok ()

/-- Result of `verify_token` together with the number of JWKS cache
accesses (network-reaching calls to `get_jwks`) it performed. -/
structure VerifyResult where
  result : Except PyErr Claims
  jwksFetches : Nat

/-- `OIDCAuthProvider.verify_token` (auth_oidc.py lines 633-727): split the
token on `.`; 5 parts ⇒ JWE rejection, anything other than 3 ⇒ format
error, both before touching the JWKS cache; 3 parts ⇒ fetch JWKS, decode
and validate, then check issuer, audience and scope in order. -/
def verify_tokenR (cfg : AuthCfg) (env : VerifyEnv) (token : String) :
    VerifyResult :=
  let token_parts := pySplitDot token
  if token_parts.length = 5 then
    ⟨.error (.joseErr "JWE_TOKEN_DETECTED: Cannot decrypt JWE token"), 0⟩
  else if token_parts.length ≠ 3 then
    ⟨.error (.joseErr ("Invalid token format: expected 3 parts (JWT), got "
      ++ toString token_parts.length)), 0⟩
  else
    let afterFetch : Except PyErr Claims := do
      let jwks ← env.fetchJwks
      let claims ← env.decodeValidate jwks
      checkIssuer cfg claims
      checkAudience cfg claims
      checkScope cfg claims
      pure claims
    ⟨afterFetch, 1⟩

/-- `verify_token`, result only. -/
def verify_token (cfg : AuthCfg) (env : VerifyEnv) (token : String) :
    Except PyErr Claims :=
  (verify_tokenR cfg env token).result

/-! ### JWKS cache (`JWKSCache`, auth_oidc.py lines 85-124) -/

/-- State of a `JWKSCache` instance.  Timestamps (`time.time()` values in
seconds) are modelled as integers. -/
structure JWKSCache where
  jwks_uri : String
  cache_ttl : Int
  cachedJwks : Option Jwks
  last_fetch : Int

/-- One `get_jwks()` call: the returned (or raised) value, the cache state
afterwards, and whether a network fetch was performed. -/
structure GetJwksR where
  result : Except String Jwks
  cache : JWKSCache
  fetched : Bool

/-- `JWKSCache.get_jwks` (auth_oidc.py lines 101-124) as a step function on
the cache state: `now` is `time.time()`, `fetch` is the outcome of the HTTP
GET (`.error` for any exception from `client.get`, `raise_for_status` or
`response.json()`, in which case no cache field is assigned). -/
def get_jwks (c : JWKSCache) (now : Int) (fetch : Except String Jwks) :
    GetJwksR :=
  if jwksTruthy c.cachedJwks = true ∧ now - c.last_fetch < c.cache_ttl then
    ⟨.ok (c.cachedJwks.getD []), c, false⟩
  else
    match fetch with
    | .ok j => ⟨.ok j, { c with cachedJwks := some j, last_fetch := now }, true⟩
    | .error e => ⟨.error e, c, true⟩

/-- A sequence of `get_jwks` calls, each given by its wall-clock time and
fetch outcome; returns the final cache state and the number of network
fetches performed. -/
def runCalls (c : JWKSCache) : List (Int × Except String Jwks) → JWKSCache × Nat
  | [] => (c, 0)
  | (t, f) :: rest =>
    let r := get_jwks c t f
    let (c2, n) := runCalls r.cache rest
    (c2, (if r.fetched then 1 else 0) + n)

/-! ### Auth middleware (`OIDCAuthMiddleware`, auth_oidc.py lines 1079-1197)
and `authenticate_request` (lines 729-799) -/

/-- Default exclusion list (auth_oidc.py line 1097). -/
def defaultExcludePaths : List String :=
  ["/healthz", "/readyz", "/.well-known/", "/register"]

/-- `exclude_paths or [...]` in `OIDCAuthMiddleware.__init__`: `None` or an
empty list (both falsy) select the default list. -/
def initExcludePaths : Option (List String) → List String
  | none => defaultExcludePaths
  | some l => if l = [] then defaultExcludePaths else l

/-- Bearer-token extraction of `authenticate_request` (lines 749-754):
split the header on whitespace; exactly two parts whose first lowercases to
`bearer` yield the token. -/
def parseBearer (h : String) : Option String :=
  match pySplitWs h with
  | [a, b] => if pyLower a = "bearer" then some b else none
  | _ => none

/-- `OIDCAuthProvider.authenticate_request` (lines 729-799): a missing or
falsy (empty) `Authorization` header and a malformed header raise
`ValueError` with the messages below; otherwise the token is passed to the
verifier (`verify`), whose outcome is re-raised unchanged (the `except`
block only logs). -/
def authenticate_request (authHeader : Option String)
    (verify : String → Except PyErr Claims) : Except PyErr Claims :=
  match authHeader with
  | none => .error (.valueErr "Missing Authorization header")
  | some h =>
    if h = "" then .error (.valueErr "Missing Authorization header")
    else
      match parseBearer h with
      | some token => verify token
      | none => .error (.valueErr
          "Invalid Authorization header format. Expected \x27Bearer <token>\x27")

/-- Responses produced by `OIDCAuthMiddleware.dispatch`: pass-through to
the downstream handler, a 401 JSON body with a `WWW-Authenticate` header
(`headerError` is the `error=` code in that header, `bodyError` the
`error` field of the JSON body), or a generic 500. -/
inductive Response where
  | next
  | unauthorized (headerError : String) (bodyError : String) (desc : String)
  | serverError
deriving DecidableEq

/-- `OIDCAuthMiddleware.dispatch` (auth_oidc.py lines 1099-1197): excluded
path prefixes bypass authentication entirely; a `ValueError` maps to 401
with `invalid_request` iff its message contains `"Missing"` (JSON body
error field `"unauthorized"`); a `JoseError` maps to 401 with
`invalid_client` iff its message contains `"JWE_TOKEN_DETECTED"`, else
`invalid_token`; any other exception maps to a generic 500. -/
def dispatch (excludePaths : List String) (path : String)
    (authHeader : Option String) (verify : String → Except PyErr Claims) :
    Response :=
  if excludePaths.any (fun excluded => pyStartsWith path excluded) then
    .next
  else
    match authenticate_request authHeader verify with
    | .ok _ => .next
    | .error (.valueErr m) =>
        .unauthorized (if strContains m "Missing" then "invalid_request"
          else "invalid_token") "unauthorized" m
    | .error (.joseErr m) =>
        let error_description := if m = "" then "Token verification failed" else m
        let error_code := if strContains error_description "JWE_TOKEN_DETECTED"
          then "invalid_client" else "invalid_token"
        .unauthorized error_code error_code error_description
    | .error (.otherErr _) => .serverError

/-! ### JSON values and Python-dict operations -/

/-- JSON values; objects are insertion-ordered field lists with unique keys
(as produced by `json.loads`). -/
inductive Json where
  | null
  | boolv (b : Bool)
  | num (n : Int)
  | str (s : String)
  | arr (xs : List Json)
  | obj (fields : List (String × Json))

/-- Lookup of a key in an object field list (`d.get(k)`). -/
def objGet (fields : List (String × Json)) (k : String) : Option Json :=
  (fields.find? (fun p => p.1 = k)).map Prod.snd

/-- Python dict assignment `d[k] = v`: an existing key keeps its position,
a new key is appended. -/
def objSet (fields : List (String × Json)) (k : String) (v : Json) :
    List (String × Json) :=
  if fields.any (fun p => p.1 = k) then
    fields.map (fun p => if p.1 = k then (k, v) else p)
  else fields ++ [(k, v)]

/-- Python `del d[k]` / `d.pop(k, None)`. -/
def objRemove (fields : List (String × Json)) (k : String) :
    List (String × Json) :=
  fields.filter (fun p => p.1 ≠ k)

/-- Field lookup on a `Json` value (`none` when not an object). -/
def jsonGet (j : Json) (k : String) : Option Json :=
  match j with
  | .obj fields => objGet fields k
  | _ => none

/-! ### Client-secret store (auth_oidc.py lines 237-267, 399-426, 428-475)
-/

/-- Python truthiness of an optional string list (`None` and `[]` falsy). -/
def truthyL : Option (List String) → Bool
  | none => false
  | some l => l ≠ []

/-- The dedup-per-element merge used for the DCR-captured secrets file at
construction (auth_oidc.py lines 262-264): each secret is appended only if
not already present. -/
def mergeDcrSecrets (acc : List String) : List String → List String
  | [] => acc
  | s :: rest =>
      mergeDcrSecrets (if s ∈ acc then acc else acc ++ [s]) rest

/-- Construction of `self.client_secrets` (auth_oidc.py lines 237-267):
`client_secrets or config.get("client_secrets") or []`, then `extend` with
the configured secrets file (no dedup), then the per-element deduplicated
merge of the DCR-captured secrets file.  `none` for a file means absent or
failed to load (best-effort). -/
def initClientSecrets (explicitSecrets configSecrets fileSecrets
    dcrFileSecrets : Option (List String)) : List String :=
  let base := if truthyL explicitSecrets then explicitSecrets.getD []
    else if truthyL configSecrets then configSecrets.getD []
    else []
  let withFile := base ++ fileSecrets.getD []
  mergeDcrSecrets withFile (dcrFileSecrets.getD [])

/-- The in-memory capture of a DCR secret (auth_oidc.py lines 971-972):
append only if not already present. -/
def appendCaptured (secrets : List String) (s : String) : List String :=
  if s ∈ secrets then secrets else secrets ++ [s]

/-- `OIDCAuthProvider._persist_dcr_secret` (auth_oidc.py lines 428-475),
assuming the file I/O succeeds: the previous file contents (its
`client_secrets` list, `[]` when the file is absent or empty) are loaded,
and the new secret is appended only if not already present; the result is
the `client_secrets` list of the file afterwards. -/
def persistMerge (prev : Option (List String)) (secret : String) :
    List String :=
  let existing_secrets := prev.getD []
  if secret ∈ existing_secrets then existing_secrets
  else existing_secrets ++ [secret]

/-! ### DCR proxy (`register_client`, auth_oidc.py lines 881-1024) -/

/-- The upstream IdP response to the forwarded registration request. -/
structure UpstreamResponse where
  status : Nat
  jsonBody : Option Json
  text : String
  headers : List (String × String)

/-- Mutable state touched by `register_client`: the in-memory secret list
and the `client_secrets` list of the persisted secrets file (`none` when
the file does not exist yet). -/
structure RegisterState where
  client_secrets : List String
  persistedFile : Option (List String)

/-- Environment of one `register_client` call: the `json.loads` outcome on
the inbound body (`none` = `JSONDecodeError`), the serializer `json.dumps`,
the upstream POST outcome (`.error` = network/proxy exception message), and
the outcome of the management-API patch `_update_client_type` (consulted
only when management credentials are configured). -/
structure RegisterEnv where
  parseBody : Option Json
  dumps : Json → String
  upstreamResp : Except String UpstreamResponse
  mgmtSuccess : Bool

/-- An HTTP response returned by the proxy handler. -/
structure HttpResponse where
  status : Nat
  body : Json
  headers : List (String × String)

/-- Result of one `register_client` call: the body/header pair handed to
the upstream POST (`none` when an exception fired before forwarding), the
response returned to the caller, and the state afterwards. -/
structure RegisterResult where
  forwarded : Option (String × List (String × String))
  response : HttpResponse
  state : RegisterState

/-- The three public-client overrides injected into the inbound DCR
request body (auth_oidc.py lines 916-922):
`token_endpoint_auth_method = "none"`, `application_type = "native"`,
`app_type = "spa"`. -/
def dcrMutate (fields : List (String × Json)) : List (String × Json) :=
  objSet (objSet (objSet fields "token_endpoint_auth_method" (.str "none"))
    "application_type" (.str "native")) "app_type" (.str "spa")

/-- Hop-by-hop headers stripped before forwarding (auth_oidc.py line 940);
header names are lowercase as produced by `dict(request.headers)`. -/
def hopByHopHeaders : List String :=
  ["host", "connection", "keep-alive", "transfer-encoding"]

/-- Header-map assignment (`headers['content-length'] = ...`). -/
def headerSet (hs : List (String × String)) (k v : String) :
    List (String × String) :=
  if hs.any (fun p => p.1 = k) then
    hs.map (fun p => if p.1 = k then (k, v) else p)
  else hs ++ [(k, v)]

/-- The `client_secret` captured from the upstream response body
(auth_oidc.py lines 961, 967): present iff the field is a truthy string
(secrets are modelled as strings, which is what the IdP returns). -/
def capturedSecret (fields : List (String × Json)) : Option String :=
  match objGet fields "client_secret" with
  | some (.str s) => if s = "" then none else some s
  | _ => none

/-- `register_client` (auth_obj.py lines 881-1024).  Steps, as in the
source: parse the inbound body and inject the three public-client fields
(a JSON body that is not an object raises `TypeError` on item assignment,
caught by the outer handler as a 500; a `JSONDecodeError` forwards the raw
body unmodified); strip hop-by-hop headers; POST upstream; on a 200/201
response parse it, capture and persist any `client_secret`, and when
management credentials are configured and the patch succeeds strip the
secret from the returned body and force `token_endpoint_auth_method` and
`app_type`; on other statuses return the status with a
`registration_failed` envelope; any exception yields a 500
`server_error` envelope. -/
def register_client (mgmt_client_id : Option String) (st : RegisterState)
    (body : String) (reqHeaders : List (String × String))
    (env : RegisterEnv) : RegisterResult :=
  let step : Except String (String × List (String × String)) :=
    match env.parseBody with
    | some (.obj fields) =>
        let dcr_request := dcrMutate fields
        let modified_body := env.dumps (.obj dcr_request)
        .ok (modified_body,
          headerSet reqHeaders "content-length" (toString modified_body.length))
    | some _ => .error "TypeError: item assignment on non-dict DCR request"
    | none => .ok (body, reqHeaders)
  match step with
  | .error e =>
      ⟨none, ⟨500, .obj [("error", .str "server_error"),
        ("error_description", .str e)], []⟩, st⟩
  | .ok (mb, hs) =>
    let hs2 := hs.filter (fun p => p.1 ∉ hopByHopHeaders)
    match env.upstreamResp with
    | .error e =>
        ⟨some (mb, hs2), ⟨500, .obj [("error", .str "server_error"),
          ("error_description", .str e)], []⟩, st⟩
    | .ok resp =>
      if resp.status = 200 ∨ resp.status = 201 then
        match resp.jsonBody with
        | none =>
            ⟨some (mb, hs2), ⟨500, .obj [("error", .str "server_error"),
              ("error_description", .str "response.json() raised")], []⟩, st⟩
        | some (.obj client_data) =>
            let secret? := capturedSecret client_data
            let newSecrets := match secret? with
              | some s => appendCaptured st.client_secrets s
              | none => st.client_secrets
            let newFile := match secret? with
              | some s => some (persistMerge st.persistedFile s)
              | none => st.persistedFile
            let client_data2 :=
              if truthyS mgmt_client_id then
                if env.mgmtSuccess then
                  objSet (objSet (objRemove client_data "client_secret")
                    "token_endpoint_auth_method" (.str "none"))
                    "app_type" (.str "native")
                else client_data
              else client_data
            let response_headers :=
              resp.headers.filter (fun p => p.1 ≠ "content-length")
            ⟨some (mb, hs2), ⟨resp.status, .obj client_data2, response_headers⟩,
              ⟨newSecrets, newFile⟩⟩
        | some _ =>
            -- `client_data.get(...)` on a non-dict raises AttributeError → 500
            ⟨some (mb, hs2), ⟨500, .obj [("error", .str "server_error"),
              ("error_description", .str "AttributeError: non-dict response")],
              []⟩, st⟩
      else
        ⟨some (mb, hs2), ⟨resp.status, .obj [("error", .str "registration_failed"),
          ("error_description", .str resp.text)], []⟩, st⟩

/-! ### JWE fallback decryptor (auth_oidc.py lines 514-631) -/

/-- The UTF-8 bytes of a string (`secret.encode('utf-8')`), as numbers. -/
def utf8Bytes (s : String) : List Nat :=
  s.toUTF8.toList.map UInt8.toNat

/-- The padding normalisation applied before base64url-decoding
(auth_oidc.py lines 535-537): append `'='` up to a multiple of 4
characters. -/
def paddedSecret (secret : String) : String :=
  let padding := 4 - secret.length % 4
  if padding ≠ 4 then secret ++ String.mk (List.replicate padding '=')
  else secret

/-- `OIDCAuthProvider._prepare_jwe_key` (auth_oidc.py lines 514-558).
Bytes are `List Nat`; `b64decode` is the outcome of
`base64.urlsafe_b64decode` (`none` = raises) and `sha256` is
`hashlib.sha256(...).digest()`, both standard-library primitives.  The
source pads the secret to a multiple of 4 characters before decoding. -/
def prepare_jwe_key (b64decode : String → Option (List Nat))
    (sha256 : List Nat → List Nat) (secret : String) :
    List (String × List Nat) :=
  let secret_bytes := utf8Bytes secret
  (match b64decode (paddedSecret secret) with
   | some decoded =>
       if decoded.length = 32 then [("base64url-decoded", decoded)] else []
   | none => [])
  ++ [("sha256-hash", sha256 secret_bytes)]
  ++ (if secret_bytes.length = 32 then [("utf8-direct", secret_bytes)] else [])
  ++ (if secret_bytes.length ≥ 32 then
        [("utf8-truncated", secret_bytes.take 32)] else [])
  ++ [("raw", secret_bytes)]

/-- The candidate-key list exactly as the specification describes it:
(1) the base64url decoding of the secret when it decodes to exactly
32 bytes, (2) the SHA-256 digest of the UTF-8 bytes always, (3) the raw
UTF-8 bytes when exactly 32 bytes, (4) the first 32 UTF-8 bytes when at
least 32 bytes long, (5) the raw UTF-8 bytes unconditionally last.
(Base64url decoding of an unpadded secret means restoring the omitted
padding first, as the source does.) -/
def claimedCandidates (b64decode : String → Option (List Nat))
    (sha256 : List Nat → List Nat) (secret : String) : List (List Nat) :=
  let sb := utf8Bytes secret
  (match b64decode (paddedSecret secret) with
   | some d => if d.length = 32 then [d] else []
   | none => [])
  ++ [sha256 sb]
  ++ (if sb.length = 32 then [sb] else [])
  ++ (if sb.length ≥ 32 then [sb.take 32] else [])
  ++ [sb]

/-- The aggregated error message raised after exhausting all secrets and
derivations (auth_oidc.py lines 624-631). -/
def jweExhaustedMsg : String :=
  "Cannot decrypt JWE token. This may be a cached credential from a " ++
  "previous confidential client registration. Please disconnect and " ++
  "reconnect to create a new public client that uses unencrypted tokens."

/-- The inner loop of `_decrypt_jwe_token`: try each derived key in order;
`attempt k` is the combined outcome of `jwe.deserialize_compact(token, k)`
plus `json.loads` of its payload (`none` = some step raised, continue). -/
def tryKeys (attempt : List Nat → Option Json) :
    List (String × List Nat) → Option Json
  | [] => none
  | (_, k) :: rest =>
      match attempt k with
      | some claims => some claims
      | none => tryKeys attempt rest

/-- `OIDCAuthProvider._decrypt_jwe_token` (auth_oidc.py lines 560-631):
for each secret in store order, try each derived key in order; the first
successful decryption returns its JSON payload as the claims, with no
further signature verification; exhausting everything raises one
aggregated `JoseError`. -/
def decrypt_jwe_token (b64decode : String → Option (List Nat))
    (sha256 : List Nat → List Nat) (attempt : List Nat → Option Json) :
    List String → Except PyErr Json
  | [] => .error (.joseErr jweExhaustedMsg)
  | secret :: rest =>
      match tryKeys attempt (prepare_jwe_key b64decode sha256 secret) with
      | some claims => .ok claims
      | none => decrypt_jwe_token b64decode sha256 attempt rest

/-! ### Concrete fixtures used by witnesses -/

/-- A sample configuration (issuer and audience as validated at init). -/
def cfgEx : AuthCfg :=
  ⟨"https://issuer.example.com", "mcp-api", none, none⟩

/-- A sample decoded claim set: valid issuer and audience, M2M scope. -/
def claimsEx : Claims :=
  ⟨"https://issuer.example.com", .one "mcp-api", .strv "mcp:read", some "user1"⟩

/-- A sample JWKS document. -/
def jwksEx : Jwks := [("keys", "rsa-key-1")]

/-- A sample verification environment where the JWKS fetch and the
signature check both succeed. -/
def envEx : VerifyEnv := ⟨.ok jwksEx, fun _ => .ok claimsEx⟩

/-- A sample JWKS cache holding a fresh, truthy key set fetched at t=1000
with the default 3600-second TTL. -/
def cacheEx : JWKSCache := ⟨"https://issuer.example.com/jwks", 3600, some jwksEx, 1000⟩

/-- A sample DCR environment: inbound body is not JSON, upstream rejects
with a 400. -/
def envC8 : RegisterEnv :=
  ⟨none, fun _ => "", .ok ⟨400, none, "upstream-denied", []⟩, false⟩

/-- A sample DCR environment where the upstream POST raises a network
error. -/
def envC8e : RegisterEnv :=
  ⟨none, fun _ => "", .error "connection refused", false⟩

/-- A sample DCR environment for the success path: inbound body parses as
an object, upstream returns 201 with a client secret, management patch
succeeds. -/
def envC6 : RegisterEnv :=
  ⟨some (.obj [("redirect_uris", .arr [.str "https://x"])]),
   fun _ => "{}",
   .ok ⟨201, some (.obj [("client_id", .str "abc"),
     ("client_secret", .str "sek"), ("client_name", .str "Claude")]),
     "", [("content-length", "99"), ("server", "auth0")]⟩,
   true⟩

/-! ### Helper lemmas -/

theorem objSet_map_find (k : String) (v : Json) :
    ∀ fs : List (String × Json), fs.any (fun p => p.1 = k) = true →
      (fs.map (fun p => if p.1 = k then (k, v) else p)).find?
        (fun p => p.1 = k) = some (k, v) := by
  intro fs
  induction fs with
  | nil => intro h; simp at h
  | cons a t ih =>
    intro h
    by_cases ha : a.1 = k
    · simp [ha]
    · have ht : t.any (fun p => p.1 = k) = true := by
        rcases List.any_eq_true.mp h with ⟨p, hp, hpk⟩
        rcases List.mem_cons.mp hp with rfl | hpt
        · exact absurd (by simpa using hpk) ha
        · exact List.any_eq_true.mpr ⟨p, hpt, hpk⟩
      rw [List.map_cons, if_neg ha, List.find?_cons_of_neg _ (by simpa using ha)]
      exact ih ht

theorem objGet_objSet_self (fs : List (String × Json)) (k : String) (v : Json) :
    objGet (objSet fs k v) k = some v := by
  unfold objSet objGet
  by_cases h : fs.any (fun p => p.1 = k)
  · rw [if_pos h, objSet_map_find k v fs h]
    rfl
  · have hfind : fs.find? (fun p => p.1 = k) = none := by
      rw [List.find?_eq_none]
      intro p hp hc
      exact h (List.any_eq_true.mpr ⟨p, hp, hc⟩)
    rw [if_neg h, List.find?_append, hfind, Option.none_or,
      List.find?_cons_of_pos _ (by simp)]
    rfl

theorem objSet_map_find_other (k k' : String) (v : Json) (hk : k' ≠ k) :
    ∀ fs : List (String × Json),
      (fs.map (fun p => if p.1 = k then (k, v) else p)).find?
        (fun p => p.1 = k') = fs.find? (fun p => p.1 = k') := by
  intro fs
  induction fs with
  | nil => rfl
  | cons a t ih =>
    by_cases ha : a.1 = k
    · have h1 : ¬((k, v).1 = k') := fun he => hk (by simpa using he.symm)
      have h2 : ¬(a.1 = k') := by rw [ha]; exact fun he => hk he.symm
      rw [List.map_cons, if_pos ha, List.find?_cons_of_neg _ (by simpa using h1),
        List.find?_cons_of_neg _ (by simpa using h2), ih]
    · by_cases ha2 : a.1 = k'
      · rw [List.map_cons, if_neg ha, List.find?_cons_of_pos _ (by simpa using ha2),
          List.find?_cons_of_pos _ (by simpa using ha2)]
      · rw [List.map_cons, if_neg ha, List.find?_cons_of_neg _ (by simpa using ha2),
          List.find?_cons_of_neg _ (by simpa using ha2), ih]

theorem objGet_objSet_other (fs : List (String × Json)) (k k' : String)
    (v : Json) (hk : k' ≠ k) : objGet (objSet fs k v) k' = objGet fs k' := by
  unfold objSet objGet
  by_cases h : fs.any (fun p => p.1 = k)
  · rw [if_pos h, objSet_map_find_other k k' v hk fs]
  · rw [if_neg h, List.find?_append,
      List.find?_cons_of_neg _ (by simpa using fun he => hk he.symm),
      show ([] : List (String × Json)).find? (fun p => p.1 = k') = none from rfl,
      Option.or_none]

theorem objGet_objRemove_self (fs : List (String × Json)) (k : String) :
    objGet (objRemove fs k) k = none := by
  unfold objGet objRemove
  have hfind : (fs.filter (fun p => p.1 ≠ k)).find? (fun p => p.1 = k) = none := by
    rw [List.find?_eq_none]
    intro p hp hc
    have := List.of_mem_filter hp
    simp at this hc
    exact this hc
  rw [hfind]
  rfl

theorem objGet_objRemove_other (fs : List (String × Json)) (k k' : String)
    (hk : k' ≠ k) : objGet (objRemove fs k) k' = objGet fs k' := by
  unfold objGet objRemove
  induction fs with
  | nil => rfl
  | cons a t ih =>
    by_cases ha : a.1 = k
    · have ha' : ¬(a.1 = k') := by rw [ha]; exact fun he => hk he.symm
      rw [show (a :: t).filter (fun p => p.1 ≠ k) = t.filter (fun p => p.1 ≠ k) by
            simp [List.filter_cons, ha],
        List.find?_cons_of_neg _ (by simpa using ha'), ih]
    · by_cases ha2 : a.1 = k'
      · rw [show (a :: t).filter (fun p => p.1 ≠ k) = a :: t.filter (fun p => p.1 ≠ k) by
              simp [List.filter_cons, ha],
          List.find?_cons_of_pos _ (by simpa using ha2),
          List.find?_cons_of_pos _ (by simpa using ha2)]
      · rw [show (a :: t).filter (fun p => p.1 ≠ k) = a :: t.filter (fun p => p.1 ≠ k) by
              simp [List.filter_cons, ha],
          List.find?_cons_of_neg _ (by simpa using ha2),
          List.find?_cons_of_neg _ (by simpa using ha2), ih]

/-! ### Claim theorems -/

/-- C1: `verify_token` splits the token on `.` before any JWKS access:
exactly 5 segments raises the JWE-unsupported `JoseError`
(`JWE_TOKEN_DETECTED`) with no JWKS fetch; any count other than 3 or 5
raises a format error naming the segment count with no JWKS fetch; the
JWKS fetch happens exactly when the token has 3 segments. -/
theorem claim_C1_token_classification (cfg : AuthCfg) (env : VerifyEnv)
    (token : String) :
    ((pySplitDot token).length = 5 →
      verify_tokenR cfg env token =
        ⟨.error (.joseErr "JWE_TOKEN_DETECTED: Cannot decrypt JWE token"), 0⟩) ∧
    ((pySplitDot token).length ≠ 5 → (pySplitDot token).length ≠ 3 →
      verify_tokenR cfg env token =
        ⟨.error (.joseErr ("Invalid token format: expected 3 parts (JWT), got "
          ++ toString (pySplitDot token).length)), 0⟩) ∧
    ((verify_tokenR cfg env token).jwksFetches =
      if (pySplitDot token).length = 3 then 1 else 0) := by
  refine ⟨fun h5 => ?_, fun h5 h3 => ?_, ?_⟩
  · simp [verify_tokenR, h5]
  · simp [verify_tokenR, h5, h3]
  · by_cases h5 : (pySplitDot token).length = 5
    · have h3 : (pySplitDot token).length ≠ 3 := by omega
      simp [verify_tokenR, h5, h3]
    · by_cases h3 : (pySplitDot token).length = 3
      · simp [verify_tokenR, h5, h3]
      · simp [verify_tokenR, h5, h3]

/-- Witness for C1 at concrete tokens: a 5-segment token, a 2-segment
token, and a 3-segment token. -/
theorem claim_C1_witness :
    verify_tokenR cfgEx envEx "h.ek.iv.ct.tag" =
      ⟨.error (.joseErr "JWE_TOKEN_DETECTED: Cannot decrypt JWE token"), 0⟩ ∧
    verify_tokenR cfgEx envEx "only-two.parts" =
      ⟨.error (.joseErr "Invalid token format: expected 3 parts (JWT), got 2"), 0⟩ ∧
    (verify_tokenR cfgEx envEx "h.p.s").jwksFetches = 1 := by
  refine ⟨(claim_C1_token_classification cfgEx envEx "h.ek.iv.ct.tag").1 (by decide),
    (claim_C1_token_classification cfgEx envEx "only-two.parts").2.1
      (by decide) (by decide), ?_⟩
  have h := (claim_C1_token_classification cfgEx envEx "h.p.s").2.2
  rwa [if_pos (by decide : (pySplitDot "h.p.s").length = 3)] at h

/-- C2 (code bug): with the constructor parameter omitted the Python
default value `"openid"` (auth_oidc.py line 149) makes
`self.required_scope = "openid"` even when the config file and the
`OIDC_SCOPE` environment variable are unset, contradicting the inline
comment "Don't require scope by default" (line 199) and the spec's M2M
mode: an otherwise-valid 3-segment token with `scope="mcp:read"` is then
rejected by the scope check instead of verifying successfully. -/
theorem claim_C2_default_scope_code_bug :
    initRequiredScope (some "openid") none none = some "openid" ∧
    claimsEx.scope = .strv "mcp:read" ∧
    verify_token
        { cfgEx with required_scope := initRequiredScope (some "openid") none none }
        envEx "h.p.s" =
      .error (.valueErr
        "Required scope \x27openid\x27 not found in token. Token has: [mcp:read]") :=
  ⟨rfl, rfl, rfl⟩

/-- C3: a fresh cached key set is returned with no fetch and no state
change; a stale or absent entry always fetches, on success replacing the
entry wholesale, on failure propagating the error without falling back to
the cached set; and any sequence of calls within the TTL window of a
truthy cached entry performs zero fetches (so at most one fetch total
counting the one that filled the cache). -/
theorem claim_C3_jwks_cache (c : JWKSCache) (now : Int)
    (fetch : Except String Jwks) :
    (jwksTruthy c.cachedJwks = true → now - c.last_fetch < c.cache_ttl →
      get_jwks c now fetch = ⟨.ok (c.cachedJwks.getD []), c, false⟩) ∧
    (¬(jwksTruthy c.cachedJwks = true ∧ now - c.last_fetch < c.cache_ttl) →
      (get_jwks c now fetch).fetched = true ∧
      (∀ j, fetch = .ok j → get_jwks c now fetch =
        ⟨.ok j, { c with cachedJwks := some j, last_fetch := now }, true⟩) ∧
      (∀ e, fetch = .error e → get_jwks c now fetch = ⟨.error e, c, true⟩)) ∧
    (∀ calls : List (Int × Except String Jwks),
      jwksTruthy c.cachedJwks = true →
      (∀ p ∈ calls, p.1 - c.last_fetch < c.cache_ttl) →
      runCalls c calls = (c, 0)) := by
  refine ⟨fun ht hf => ?_, fun hstale => ⟨?_, fun j hj => ?_, fun e he => ?_⟩, ?_⟩
  · unfold get_jwks
    rw [if_pos ⟨ht, hf⟩]
  · unfold get_jwks
    rw [if_neg hstale]
    cases fetch <;> rfl
  · unfold get_jwks
    rw [if_neg hstale, hj]
  · unfold get_jwks
    rw [if_neg hstale, he]
  · intro calls htr
    induction calls with
    | nil => intro _; rfl
    | cons p rest ih =>
      intro hall
      obtain ⟨t, f⟩ := p
      have hfresh : get_jwks c t f = ⟨.ok (c.cachedJwks.getD []), c, false⟩ := by
        unfold get_jwks
        rw [if_pos ⟨htr, hall (t, f) (List.mem_cons_self _ _)⟩]
      have ihr := ih (fun q hq => hall q (List.mem_cons_of_mem _ hq))
      simp [runCalls, hfresh, ihr]

/-- Witness for C3: the sample cache (fetched at t=1000, TTL 3600) returns
the cached set at t=2000 even when the network is down, refetches and
replaces wholesale at t=9999, propagates a failure at t=9999 without
returning the stale set, and performs zero fetches over a three-call
sequence inside the TTL window. -/
theorem claim_C3_witness :
    get_jwks cacheEx 2000 (.error "down") = ⟨.ok jwksEx, cacheEx, false⟩ ∧
    get_jwks cacheEx 9999 (.ok [("keys", "rsa-key-2")]) =
      ⟨.ok [("keys", "rsa-key-2")],
        { cacheEx with
          cachedJwks := some [("keys", "rsa-key-2")]
          last_fetch := 9999 }, true⟩ ∧
    get_jwks cacheEx 9999 (.error "down") = ⟨.error "down", cacheEx, true⟩ ∧
    runCalls cacheEx [(1500, .error "down"), (2000, .ok []), (4599, .error "x")] =
      (cacheEx, 0) := by
  refine ⟨(claim_C3_jwks_cache cacheEx 2000 (.error "down")).1
      (by decide) (by decide),
    ((claim_C3_jwks_cache cacheEx 9999 (.ok [("keys", "rsa-key-2")])).2.1
      (by decide)).2.1 _ rfl,
    ((claim_C3_jwks_cache cacheEx 9999 (.error "down")).2.1
      (by decide)).2.2 _ rfl,
    (claim_C3_jwks_cache cacheEx 0 (.error "unused")).2.2
      [(1500, .error "down"), (2000, .ok []), (4599, .error "x")]
      (by decide) (by decide)⟩

/-- C4 counterexample: a malformed `Authorization` header (`Basic abc`, not
of the form `Bearer <token>`) on a non-excluded path yields
`error="invalid_token"` in the `WWW-Authenticate` header, not
`error="invalid_request"` as the claim states: the `ValueError` branch
selects `invalid_request` only when the message contains `"Missing"`, and
the malformed-header message does not. -/
theorem claim_C4_counterexample :
    dispatch defaultExcludePaths "/mcp" (some "Basic abc")
        (fun _ => .ok claimsEx) =
      .unauthorized "invalid_token" "unauthorized"
        "Invalid Authorization header format. Expected \x27Bearer <token>\x27" ∧
    "invalid_token" ≠ "invalid_request" := by
  exact ⟨by decide, by decide⟩

/-- C4 amended: on non-excluded paths, a missing (or empty, hence falsy)
`Authorization` header yields `error="invalid_request"`; a present but
malformed header yields `error="invalid_token"` (not `invalid_request` as
originally claimed); a 5-segment JWE token yields `error="invalid_client"`;
any other `JoseError` whose message does not contain `JWE_TOKEN_DETECTED`
and any `ValueError` whose message does not contain `Missing` yield
`error="invalid_token"`; and any other exception yields a 500 with a
generic body. -/
theorem claim_C4_amended (excludePaths : List String) (path : String)
    (hexcl : excludePaths.any (fun e => pyStartsWith path e) = false) :
    (∀ verify, dispatch excludePaths path none verify =
      .unauthorized "invalid_request" "unauthorized"
        "Missing Authorization header" ∧
      dispatch excludePaths path (some "") verify =
      .unauthorized "invalid_request" "unauthorized"
        "Missing Authorization header") ∧
    (∀ h verify, h ≠ "" → parseBearer h = none →
      dispatch excludePaths path (some h) verify =
        .unauthorized "invalid_token" "unauthorized"
          "Invalid Authorization header format. Expected \x27Bearer <token>\x27") ∧
    (∀ h token cfg env, parseBearer h = some token →
      (pySplitDot token).length = 5 →
      dispatch excludePaths path (some h) (verify_token cfg env) =
        .unauthorized "invalid_client" "invalid_client"
          "JWE_TOKEN_DETECTED: Cannot decrypt JWE token") ∧
    (∀ h token verify m, parseBearer h = some token →
      verify token = .error (.joseErr m) →
      strContains m "JWE_TOKEN_DETECTED" = false → m ≠ "" →
      dispatch excludePaths path (some h) verify =
        .unauthorized "invalid_token" "invalid_token" m) ∧
    (∀ h token verify m, parseBearer h = some token →
      verify token = .error (.valueErr m) →
      strContains m "Missing" = false →
      dispatch excludePaths path (some h) verify =
        .unauthorized "invalid_token" "unauthorized" m) ∧
    (∀ h token verify m, parseBearer h = some token →
      verify token = .error (.otherErr m) →
      dispatch excludePaths path (some h) verify = .serverError) := by
  have hif : ¬(excludePaths.any (fun e => pyStartsWith path e) = true) := by
    simp [hexcl]
  have hne : ∀ (h : String) (token : String), parseBearer h = some token →
      h ≠ "" := by
    intro h token hparse he
    rw [he, (by decide : parseBearer "" = none)] at hparse
    exact Option.noConfusion hparse
  refine ⟨fun verify => ⟨?_, ?_⟩, fun h verify hh hparse => ?_,
    fun h token cfg env hparse h5 => ?_, fun h token verify m hparse hv hjwe hm => ?_,
    fun h token verify m hparse hv hmiss => ?_, fun h token verify m hparse hv => ?_⟩
  · unfold dispatch
    rw [if_neg hif]
    rfl
  · unfold dispatch
    rw [if_neg hif]
    rfl
  · have ha : authenticate_request (some h) verify = .error (.valueErr
        "Invalid Authorization header format. Expected \x27Bearer <token>\x27") := by
      simp only [authenticate_request]
      rw [if_neg hh, hparse]
    unfold dispatch
    rw [if_neg hif]
    simp only [ha]
    rw [if_neg (by decide : ¬(strContains
      "Invalid Authorization header format. Expected \x27Bearer <token>\x27"
      "Missing" = true))]
  · have hv : verify_token cfg env token =
        .error (.joseErr "JWE_TOKEN_DETECTED: Cannot decrypt JWE token") := by
      simp only [verify_token, verify_tokenR]
      rw [if_pos h5]
    have ha : authenticate_request (some h) (verify_token cfg env) =
        .error (.joseErr "JWE_TOKEN_DETECTED: Cannot decrypt JWE token") := by
      simp only [authenticate_request]
      rw [if_neg (hne h token hparse), hparse]
      exact hv
    unfold dispatch
    rw [if_neg hif]
    simp only [ha]
    decide
  · have ha : authenticate_request (some h) verify = .error (.joseErr m) := by
      simp only [authenticate_request]
      rw [if_neg (hne h token hparse), hparse]
      exact hv
    unfold dispatch
    rw [if_neg hif]
    simp only [ha]
    rw [if_neg hm, if_neg (by simp [hjwe])]
  · have ha : authenticate_request (some h) verify = .error (.valueErr m) := by
      simp only [authenticate_request]
      rw [if_neg (hne h token hparse), hparse]
      exact hv
    unfold dispatch
    rw [if_neg hif]
    simp only [ha]
    rw [if_neg (by simp [hmiss])]
  · have ha : authenticate_request (some h) verify = .error (.otherErr m) := by
      simp only [authenticate_request]
      rw [if_neg (hne h token hparse), hparse]
      exact hv
    unfold dispatch
    rw [if_neg hif]
    simp only [ha]

/-- Witness for C4 amended on the default exclusion list and path `/mcp`:
a missing header, a malformed header, and a Bearer-carried 5-segment JWE
token. -/
theorem claim_C4_witness :
    dispatch defaultExcludePaths "/mcp" none (fun _ => .ok claimsEx) =
      .unauthorized "invalid_request" "unauthorized"
        "Missing Authorization header" ∧
    dispatch defaultExcludePaths "/mcp" (some "NotBearer x")
        (fun _ => .ok claimsEx) =
      .unauthorized "invalid_token" "unauthorized"
        "Invalid Authorization header format. Expected \x27Bearer <token>\x27" ∧
    dispatch defaultExcludePaths "/mcp" (some "Bearer h.ek.iv.ct.tag")
        (verify_token cfgEx envEx) =
      .unauthorized "invalid_client" "invalid_client"
        "JWE_TOKEN_DETECTED: Cannot decrypt JWE token" := by
  refine ⟨((claim_C4_amended defaultExcludePaths "/mcp" (by decide)).1
      (fun _ => .ok claimsEx)).1,
    (claim_C4_amended defaultExcludePaths "/mcp" (by decide)).2.1
      "NotBearer x" (fun _ => .ok claimsEx) (by decide) (by decide),
    (claim_C4_amended defaultExcludePaths "/mcp" (by decide)).2.2.1
      "Bearer h.ek.iv.ct.tag" "h.ek.iv.ct.tag" cfgEx envEx (by decide) (by decide)⟩

/-- C10: path exclusion is prefix-based: any request whose path starts
with an excluded entry is passed to the downstream handler for every
`Authorization` header and every verifier outcome (no token extraction or
verification happens), and under the default exclusion list this includes
paths that merely extend an excluded prefix, such as `/register-anything`
and `/healthz/other`. -/
theorem claim_C10_prefix_exclusion :
    (∀ excludePaths path authHeader verify,
      (∃ e ∈ excludePaths, pyStartsWith path e = true) →
      dispatch excludePaths path authHeader verify = .next) ∧
    (∀ authHeader verify,
      dispatch (initExcludePaths none) "/register-anything" authHeader verify =
        .next ∧
      dispatch (initExcludePaths none) "/healthz/other" authHeader verify =
        .next) := by
  constructor
  · intro excludePaths path authHeader verify hex
    obtain ⟨e, he, hs⟩ := hex
    unfold dispatch
    rw [if_pos (List.any_eq_true.mpr ⟨e, he, hs⟩)]
  · intro authHeader verify
    exact ⟨rfl, rfl⟩

/-- Witness for C10: the default list excludes `/healthz/other` via the
`/healthz` prefix even with a junk header and a verifier that would throw
an unexpected exception. -/
theorem claim_C10_witness :
    dispatch defaultExcludePaths "/healthz/other" (some "junk")
      (fun _ => .error (.otherErr "boom")) = .next :=
  claim_C10_prefix_exclusion.1 defaultExcludePaths "/healthz/other"
    (some "junk") (fun _ => .error (.otherErr "boom"))
    ⟨"/healthz", by decide, by decide⟩

theorem filter_hop_all (l : List (String × String)) (k : String)
    (hk : k ∈ hopByHopHeaders) :
    (l.filter (fun p => p.1 ∉ hopByHopHeaders)).all (fun p => p.1 ≠ k) = true := by
  rw [List.all_eq_true]
  intro p hp
  have h2 := List.of_mem_filter hp
  simp only [decide_eq_true_eq] at h2 ⊢
  intro he
  exact h2 (he ▸ hk)

/-- The request actually handed to the upstream POST, as a function of the
inbound-body parse outcome. -/
theorem register_forwarded (mgmt : Option String) (st : RegisterState)
    (body : String) (reqHeaders : List (String × String)) (env : RegisterEnv) :
    (register_client mgmt st body reqHeaders env).forwarded =
      match env.parseBody with
      | some (.obj fields) =>
          let mb := env.dumps (.obj (dcrMutate fields))
          some (mb, (headerSet reqHeaders "content-length"
            (toString mb.length)).filter (fun p => p.1 ∉ hopByHopHeaders))
      | some _ => none
      | none => some (body, reqHeaders.filter (fun p => p.1 ∉ hopByHopHeaders)) := by
  unfold register_client
  cases hpb : env.parseBody with
  | none =>
      dsimp only
      cases hup : env.upstreamResp with
      | error e => rfl
      | ok resp =>
          dsimp only
          by_cases hst : resp.status = 200 ∨ resp.status = 201
          · rw [if_pos hst]
            cases hjb : resp.jsonBody with
            | none => rfl
            | some j => cases j <;> rfl
          · rw [if_neg hst]
  | some j =>
      cases j with
      | obj fields =>
          dsimp only
          cases hup : env.upstreamResp with
          | error e => rfl
          | ok resp =>
              dsimp only
              by_cases hst : resp.status = 200 ∨ resp.status = 201
              · rw [if_pos hst]
                cases hjb : resp.jsonBody with
                | none => rfl
                | some j2 => cases j2 <;> rfl
              · rw [if_neg hst]
      | null => rfl
      | boolv b => rfl
      | num n => rfl
      | str s => rfl
      | arr xs => rfl

theorem mem_appendCaptured (l : List String) (s : String) :
    s ∈ appendCaptured l s := by
  unfold appendCaptured
  by_cases h : s ∈ l
  · rwa [if_pos h]
  · rw [if_neg h]
    exact List.mem_append_right _ (List.mem_singleton_self s)

theorem mem_persistMerge (prev : Option (List String)) (s : String) :
    s ∈ persistMerge prev s := by
  unfold persistMerge
  by_cases h : s ∈ prev.getD []
  · rwa [if_pos h]
  · rw [if_neg h]
    exact List.mem_append_right _ (List.mem_singleton_self s)

/-- C5: a JSON-object registration body is forwarded with
`token_endpoint_auth_method="none"`, `application_type="native"` and
`app_type="spa"` injected (overriding any caller-supplied values) and all
other fields unchanged; a body that does not parse as JSON is forwarded
unmodified; and the forwarded headers never include `host`, `connection`,
`keep-alive` or `transfer-encoding`. -/
theorem claim_C5_dcr_mutation (mgmt : Option String) (st : RegisterState)
    (body : String) (reqHeaders : List (String × String)) (env : RegisterEnv) :
    (∀ fields, env.parseBody = some (.obj fields) →
      (register_client mgmt st body reqHeaders env).forwarded =
        some (env.dumps (.obj (dcrMutate fields)),
          (headerSet reqHeaders "content-length"
            (toString (env.dumps (.obj (dcrMutate fields))).length)).filter
            (fun p => p.1 ∉ hopByHopHeaders)) ∧
      objGet (dcrMutate fields) "token_endpoint_auth_method" = some (.str "none") ∧
      objGet (dcrMutate fields) "application_type" = some (.str "native") ∧
      objGet (dcrMutate fields) "app_type" = some (.str "spa") ∧
      (∀ k, k ≠ "token_endpoint_auth_method" → k ≠ "application_type" →
        k ≠ "app_type" → objGet (dcrMutate fields) k = objGet fields k)) ∧
    (env.parseBody = none →
      (register_client mgmt st body reqHeaders env).forwarded =
        some (body, reqHeaders.filter (fun p => p.1 ∉ hopByHopHeaders))) ∧
    (∀ fb fh, (register_client mgmt st body reqHeaders env).forwarded =
        some (fb, fh) →
      ∀ k ∈ hopByHopHeaders, fh.all (fun p => p.1 ≠ k) = true) := by
  refine ⟨fun fields hpb => ⟨?_, ?_, ?_, ?_, fun k h1 h2 h3 => ?_⟩,
    fun hpb => ?_, fun fb fh hfw k hk => ?_⟩
  · rw [register_forwarded, hpb]
  · unfold dcrMutate
    rw [objGet_objSet_other _ _ _ _ (by decide),
      objGet_objSet_other _ _ _ _ (by decide), objGet_objSet_self]
  · unfold dcrMutate
    rw [objGet_objSet_other _ _ _ _ (by decide), objGet_objSet_self]
  · unfold dcrMutate
    rw [objGet_objSet_self]
  · unfold dcrMutate
    rw [objGet_objSet_other _ _ _ _ h3, objGet_objSet_other _ _ _ _ h2,
      objGet_objSet_other _ _ _ _ h1]
  · rw [register_forwarded, hpb]
  · rw [register_forwarded] at hfw
    cases hpb : env.parseBody with
    | none =>
        rw [hpb] at hfw
        simp only [Option.some.injEq, Prod.mk.injEq] at hfw
        rw [← hfw.2]
        exact filter_hop_all _ k hk
    | some j =>
        rw [hpb] at hfw
        cases j with
        | obj fields =>
            simp only [Option.some.injEq, Prod.mk.injEq] at hfw
            rw [← hfw.2]
            exact filter_hop_all _ k hk
        | null => exact Option.noConfusion hfw
        | boolv b => exact Option.noConfusion hfw
        | num n => exact Option.noConfusion hfw
        | str s => exact Option.noConfusion hfw
        | arr xs => exact Option.noConfusion hfw

/-- Witness for C5 at a concrete registration exchange (`envC6`): the
`host` header is stripped, `content-length` is recomputed, and the three
public-client fields are injected into the one-field body. -/
theorem claim_C5_witness :
    (register_client (some "mgmt") ⟨[], none⟩ "irrelevant-raw-body"
        [("host", "example.org"), ("content-type", "application/json")]
        envC6).forwarded =
      some ("{}", [("content-type", "application/json"),
        ("content-length", "2")]) ∧
    objGet (dcrMutate [("redirect_uris", .arr [.str "https://x"])])
      "token_endpoint_auth_method" = some (.str "none") ∧
    objGet (dcrMutate [("redirect_uris", .arr [.str "https://x"])])
      "app_type" = some (.str "spa") ∧
    objGet (dcrMutate [("redirect_uris", .arr [.str "https://x"])])
      "redirect_uris" = some (.arr [.str "https://x"]) := by
  have h := claim_C5_dcr_mutation (some "mgmt") ⟨[], none⟩ "irrelevant-raw-body"
    [("host", "example.org"), ("content-type", "application/json")] envC6
  have h1 := (h.1 [("redirect_uris", .arr [.str "https://x"])] rfl)
  exact ⟨h1.1, h1.2.1, h1.2.2.2.1,
    h1.2.2.2.2 "redirect_uris" (by decide) (by decide) (by decide)⟩

/-- C6: when the upstream registration response is 200/201 with a truthy
`client_secret` string and the management-API patch (management client id
configured) succeeds, the response returned to the caller has the
`client_secret` field removed and `token_endpoint_auth_method="none"`
forced, while the captured secret is in the in-memory list and in the
persisted secrets file afterwards. -/
theorem claim_C6_secret_handling (mgmt : Option String) (st : RegisterState)
    (body : String) (reqHeaders : List (String × String)) (env : RegisterEnv)
    (resp : UpstreamResponse) (cd : List (String × Json)) (s : String)
    (hbody : env.parseBody = none ∨ ∃ fs, env.parseBody = some (.obj fs))
    (hup : env.upstreamResp = .ok resp)
    (hst : resp.status = 200 ∨ resp.status = 201)
    (hjson : resp.jsonBody = some (.obj cd))
    (hsec : objGet cd "client_secret" = some (.str s)) (hne : s ≠ "")
    (hmgmt : truthyS mgmt = true) (hsucc : env.mgmtSuccess = true) :
    jsonGet (register_client mgmt st body reqHeaders env).response.body
      "client_secret" = none ∧
    jsonGet (register_client mgmt st body reqHeaders env).response.body
      "token_endpoint_auth_method" = some (.str "none") ∧
    s ∈ (register_client mgmt st body reqHeaders env).state.client_secrets ∧
    s ∈ ((register_client mgmt st body reqHeaders env).state.persistedFile.getD []) := by
  have hcap : capturedSecret cd = some s := by
    unfold capturedSecret
    rw [hsec]
    show (if s = "" then none else some s) = some s
    rw [if_neg hne]
  have hkey : register_client mgmt st body reqHeaders env =
      { forwarded := (register_client mgmt st body reqHeaders env).forwarded
        response := ⟨resp.status,
          .obj (objSet (objSet (objRemove cd "client_secret")
            "token_endpoint_auth_method" (.str "none")) "app_type" (.str "native")),
          resp.headers.filter (fun p => p.1 ≠ "content-length")⟩
        state := ⟨appendCaptured st.client_secrets s,
          some (persistMerge st.persistedFile s)⟩ } := by
    rcases hbody with hpb | ⟨fs, hpb⟩ <;>
    · unfold register_client
      simp only [hpb]
      try dsimp only
      simp only [hup]
      try dsimp only
      rw [if_pos hst]
      simp only [hjson]
      try dsimp only
      simp only [hcap]
      try dsimp only
      rw [if_pos hmgmt, if_pos hsucc]
  constructor
  · rw [hkey]
    show objGet _ "client_secret" = none
    rw [objGet_objSet_other _ _ _ _ (by decide),
      objGet_objSet_other _ _ _ _ (by decide), objGet_objRemove_self]
  constructor
  · rw [hkey]
    show objGet _ "token_endpoint_auth_method" = some (.str "none")
    rw [objGet_objSet_other _ _ _ _ (by decide), objGet_objSet_self]
  constructor
  · rw [hkey]
    exact mem_appendCaptured st.client_secrets s
  · rw [hkey]
    exact mem_persistMerge st.persistedFile s

/-- Witness for C6 at the concrete exchange `envC6` (upstream 201 with
secret `"sek"`, management patch succeeds), starting from one known secret
`"old"` in memory and on disk. -/
theorem claim_C6_witness :
    jsonGet (register_client (some "mgmt") ⟨["old"], some ["old"]⟩ "b" []
      envC6).response.body "client_secret" = none ∧
    jsonGet (register_client (some "mgmt") ⟨["old"], some ["old"]⟩ "b" []
      envC6).response.body "token_endpoint_auth_method" = some (.str "none") ∧
    "sek" ∈ (register_client (some "mgmt") ⟨["old"], some ["old"]⟩ "b" []
      envC6).state.client_secrets ∧
    "sek" ∈ ((register_client (some "mgmt") ⟨["old"], some ["old"]⟩ "b" []
      envC6).state.persistedFile.getD []) :=
  claim_C6_secret_handling (some "mgmt") ⟨["old"], some ["old"]⟩ "b" [] envC6
    ⟨201, some (.obj [("client_id", .str "abc"), ("client_secret", .str "sek"),
      ("client_name", .str "Claude")]), "", [("content-length", "99"),
      ("server", "auth0")]⟩
    [("client_id", .str "abc"), ("client_secret", .str "sek"),
      ("client_name", .str "Claude")] "sek"
    (Or.inr ⟨[("redirect_uris", .arr [.str "https://x"])], rfl⟩)
    rfl (Or.inr rfl) rfl rfl (by decide) (by decide) rfl

theorem nodup_append_single (l : List String) (s : String) (hs : s ∉ l)
    (h : l.Nodup) : (l ++ [s]).Nodup := by
  rw [List.nodup_append]
  refine ⟨h, List.nodup_singleton s, ?_⟩
  intro a ha hb
  rw [List.mem_singleton] at hb
  exact hs (hb ▸ ha)

theorem mergeDcrSecrets_nodup :
    ∀ (l acc : List String), acc.Nodup → (mergeDcrSecrets acc l).Nodup := by
  intro l
  induction l with
  | nil => intro acc h; exact h
  | cons s rest ih =>
      intro acc h
      unfold mergeDcrSecrets
      by_cases hs : s ∈ acc
      · rw [if_pos hs]; exact ih acc h
      · rw [if_neg hs]; exact ih _ (nodup_append_single acc s hs h)

theorem appendCaptured_nodup (l : List String) (s : String) (h : l.Nodup) :
    (appendCaptured l s).Nodup := by
  unfold appendCaptured
  by_cases hs : s ∈ l
  · rwa [if_pos hs]
  · rw [if_neg hs]; exact nodup_append_single l s hs h

theorem persistMerge_superset (prev : Option (List String)) (s : String) :
    (prev.getD []) ⊆ persistMerge prev s := by
  unfold persistMerge
  by_cases hs : s ∈ prev.getD []
  · rw [if_pos hs]
    exact fun a ha => ha
  · rw [if_neg hs]; exact List.subset_append_left _ _

theorem persistMerge_nodup (prev : Option (List String)) (s : String)
    (h : (prev.getD []).Nodup) : (persistMerge prev s).Nodup := by
  unfold persistMerge
  by_cases hs : s ∈ prev.getD []
  · rwa [if_pos hs]
  · rw [if_neg hs]; exact nodup_append_single _ s hs h

/-- After one `register_client` call, the secret state is either unchanged
or extended by one captured secret (in memory via the membership-checked
append, on disk via the membership-checked merge). -/
theorem register_state_cases (mgmt : Option String) (st : RegisterState)
    (body : String) (reqHeaders : List (String × String)) (env : RegisterEnv) :
    (register_client mgmt st body reqHeaders env).state = st ∨
    ∃ s, (register_client mgmt st body reqHeaders env).state =
      ⟨appendCaptured st.client_secrets s, some (persistMerge st.persistedFile s)⟩ := by
  unfold register_client
  cases hpb : env.parseBody with
  | none =>
      dsimp only
      cases hup : env.upstreamResp with
      | error e => exact Or.inl rfl
      | ok resp =>
          dsimp only
          by_cases hst : resp.status = 200 ∨ resp.status = 201
          · rw [if_pos hst]
            cases hjb : resp.jsonBody with
            | none => exact Or.inl rfl
            | some j =>
                cases j with
                | obj cd =>
                    dsimp only
                    cases hcs : capturedSecret cd with
                    | none => exact Or.inl rfl
                    | some s => exact Or.inr ⟨s, rfl⟩
                | null => exact Or.inl rfl
                | boolv b => exact Or.inl rfl
                | num n => exact Or.inl rfl
                | str s2 => exact Or.inl rfl
                | arr xs => exact Or.inl rfl
          · rw [if_neg hst]
            exact Or.inl rfl
  | some j =>
      cases j with
      | obj fields =>
          dsimp only
          cases hup : env.upstreamResp with
          | error e => exact Or.inl rfl
          | ok resp =>
              dsimp only
              by_cases hst : resp.status = 200 ∨ resp.status = 201
              · rw [if_pos hst]
                cases hjb : resp.jsonBody with
                | none => exact Or.inl rfl
                | some j2 =>
                    cases j2 with
                    | obj cd =>
                        dsimp only
                        cases hcs : capturedSecret cd with
                        | none => exact Or.inl rfl
                        | some s => exact Or.inr ⟨s, rfl⟩
                    | null => exact Or.inl rfl
                    | boolv b => exact Or.inl rfl
                    | num n => exact Or.inl rfl
                    | str s2 => exact Or.inl rfl
                    | arr xs => exact Or.inl rfl
              · rw [if_neg hst]
                exact Or.inl rfl
      | null => exact Or.inl rfl
      | boolv b => exact Or.inl rfl
      | num n => exact Or.inl rfl
      | str s2 => exact Or.inl rfl
      | arr xs => exact Or.inl rfl

/-- C7 counterexample: construction is not duplicate-free.  With an
explicit secret list `["s"]` and a configured secrets file also holding
`["s"]`, the constructor's `extend` (auth_oidc.py line 251) appends the
file contents without a membership check, so `"s"` appears twice in the
in-memory list after construction. -/
theorem claim_C7_counterexample :
    initClientSecrets (some ["s"]) none (some ["s"]) none = ["s", "s"] ∧
    ¬ (initClientSecrets (some ["s"]) none (some ["s"]) none).Nodup :=
  ⟨by decide, by decide⟩

/-- C7 amended: the DCR-captured-file merge at construction, the in-memory
append during a DCR registration, and every persisted-file write each check
membership first and so never introduce duplicates, and every persisted
write merges the new secret into the previously persisted list (old
entries are kept); but the constructor concatenates the explicit list and
the configured secrets file without deduplication, so the store can hold
duplicates after construction. -/
theorem claim_C7_amended :
    (∀ acc l, acc.Nodup → (mergeDcrSecrets acc l).Nodup) ∧
    (∀ l s, l.Nodup → (appendCaptured l s).Nodup) ∧
    (∀ mgmt st body reqHeaders env, st.client_secrets.Nodup →
      (register_client mgmt st body reqHeaders env).state.client_secrets.Nodup) ∧
    (∀ prev s, (prev.getD []) ⊆ persistMerge prev s ∧
      s ∈ persistMerge prev s ∧
      ((prev.getD []).Nodup → (persistMerge prev s).Nodup)) ∧
    (∀ mgmt st body reqHeaders env,
      (st.persistedFile.getD []) ⊆
        ((register_client mgmt st body reqHeaders env).state.persistedFile.getD [])) := by
  refine ⟨fun acc l h => mergeDcrSecrets_nodup l acc h,
    fun l s h => appendCaptured_nodup l s h,
    fun mgmt st body reqHeaders env h => ?_,
    fun prev s => ⟨persistMerge_superset prev s, mem_persistMerge prev s,
      persistMerge_nodup prev s⟩,
    fun mgmt st body reqHeaders env => ?_⟩
  · rcases register_state_cases mgmt st body reqHeaders env with heq | ⟨s, heq⟩
    · rw [heq]; exact h
    · rw [heq]; exact appendCaptured_nodup st.client_secrets s h
  · rcases register_state_cases mgmt st body reqHeaders env with heq | ⟨s, heq⟩
    · rw [heq]
      exact fun a ha => ha
    · rw [heq]
      exact persistMerge_superset st.persistedFile s

/-- Witness for C7 amended at concrete inputs, including a full
`register_client` call (`envC6`) starting from a duplicate-free store. -/
theorem claim_C7_witness :
    (mergeDcrSecrets ["a"] ["a", "b"]).Nodup ∧
    (appendCaptured ["a"] "a").Nodup ∧
    (register_client (some "mgmt") ⟨["old"], some ["old"]⟩ "b" []
      envC6).state.client_secrets.Nodup ∧
    (["old"] ⊆ persistMerge (some ["old"]) "sek" ∧
      "sek" ∈ persistMerge (some ["old"]) "sek" ∧
      (persistMerge (some ["old"]) "sek").Nodup) ∧
    ["old"] ⊆ ((register_client (some "mgmt") ⟨["old"], some ["old"]⟩ "b" []
      envC6).state.persistedFile.getD []) := by
  refine ⟨claim_C7_amended.1 ["a"] ["a", "b"] (by decide),
    claim_C7_amended.2.1 ["a"] "a" (by decide),
    claim_C7_amended.2.2.1 (some "mgmt") ⟨["old"], some ["old"]⟩ "b" [] envC6
      (by decide),
    ?_, claim_C7_amended.2.2.2.2 (some "mgmt") ⟨["old"], some ["old"]⟩ "b" []
      envC6⟩
  have h := claim_C7_amended.2.2.2.1 (some ["old"]) "sek"
  exact ⟨h.1, h.2.1, h.2.2 (by decide)⟩

/-- C8 counterexample: a non-2xx upstream body is not passed through
verbatim.  At a concrete 400 upstream response with body text
`upstream-denied`, the proxy returns the upstream status but wraps the
text in a `registration_failed` JSON envelope instead of returning the
body itself. -/
theorem claim_C8_counterexample :
    (register_client none ⟨[], none⟩ "raw" [] envC8).response =
      ⟨400, .obj [("error", .str "registration_failed"),
        ("error_description", .str "upstream-denied")], []⟩ ∧
    (register_client none ⟨[], none⟩ "raw" [] envC8).response.body ≠
      .str "upstream-denied" :=
  ⟨rfl, fun h => Json.noConfusion h⟩

/-- C8 amended: for an upstream status other than 200/201 the proxy
returns the upstream's status code with the structured body
`{error: "registration_failed", error_description: <upstream text>}` (the
upstream body is not passed through verbatim); a network/proxy error
during forwarding yields a 500 with
`{error: "server_error", error_description: ...}`. -/
theorem claim_C8_amended (mgmt : Option String) (st : RegisterState)
    (body : String) (reqHeaders : List (String × String)) (env : RegisterEnv)
    (hbody : env.parseBody = none ∨ ∃ fs, env.parseBody = some (.obj fs)) :
    (∀ resp, env.upstreamResp = .ok resp → resp.status ≠ 200 →
      resp.status ≠ 201 →
      (register_client mgmt st body reqHeaders env).response =
        ⟨resp.status, .obj [("error", .str "registration_failed"),
          ("error_description", .str resp.text)], []⟩) ∧
    (∀ e, env.upstreamResp = .error e →
      (register_client mgmt st body reqHeaders env).response =
        ⟨500, .obj [("error", .str "server_error"),
          ("error_description", .str e)], []⟩) := by
  constructor
  · intro resp hup h200 h201
    have hst : ¬(resp.status = 200 ∨ resp.status = 201) :=
      fun hor => hor.elim h200 h201
    rcases hbody with hpb | ⟨fs, hpb⟩ <;>
    · unfold register_client
      simp only [hpb]
      try dsimp only
      simp only [hup]
      try dsimp only
      rw [if_neg hst]
  · intro e hup
    rcases hbody with hpb | ⟨fs, hpb⟩ <;>
    · unfold register_client
      simp only [hpb]
      try dsimp only
      simp only [hup]

/-- Witness for C8 amended: the concrete 400 rejection (`envC8`) and a
concrete network failure (`envC8e`). -/
theorem claim_C8_witness :
    (register_client none ⟨[], none⟩ "raw" [] envC8).response =
      ⟨400, .obj [("error", .str "registration_failed"),
        ("error_description", .str "upstream-denied")], []⟩ ∧
    (register_client none ⟨[], none⟩ "raw" [] envC8e).response =
      ⟨500, .obj [("error", .str "server_error"),
        ("error_description", .str "connection refused")], []⟩ :=
  ⟨(claim_C8_amended none ⟨[], none⟩ "raw" [] envC8 (Or.inl rfl)).1
      ⟨400, none, "upstream-denied", []⟩ rfl (by decide) (by decide),
    (claim_C8_amended none ⟨[], none⟩ "raw" [] envC8e (Or.inl rfl)).2
      "connection refused" rfl⟩

theorem tryKeys_eq (attempt : List Nat → Option Json) :
    ∀ l : List (String × List Nat),
      tryKeys attempt l = (l.map Prod.snd).findSome? attempt := by
  intro l
  induction l with
  | nil => rfl
  | cons p rest ih =>
      obtain ⟨name, k⟩ := p
      unfold tryKeys
      rw [List.map_cons, List.findSome?_cons]
      cases attempt k with
      | none => exact ih
      | some j => rfl

/-- C9: the JWE fallback derives candidate keys per secret in exactly the
claimed fixed order (base64url decoding if it yields 32 bytes, SHA-256
digest always, raw UTF-8 bytes if exactly 32, first 32 bytes if at least
32, raw bytes unconditionally last), and the decryptor returns the payload
of the first successful decryption over secrets in store order and
candidates in that order — with no further signature verification — or one
aggregated error after exhausting all secrets and derivations. -/
theorem claim_C9_jwe_derivation (b64decode : String → Option (List Nat))
    (sha256 : List Nat → List Nat) (attempt : List Nat → Option Json)
    (secrets : List String) :
    (∀ secret, (prepare_jwe_key b64decode sha256 secret).map Prod.snd =
      claimedCandidates b64decode sha256 secret) ∧
    (decrypt_jwe_token b64decode sha256 attempt secrets =
      match (secrets.flatMap
          (fun s => claimedCandidates b64decode sha256 s)).findSome? attempt with
      | some claims => .ok claims
      | none => .error (.joseErr jweExhaustedMsg)) := by
  have hmap : ∀ secret, (prepare_jwe_key b64decode sha256 secret).map Prod.snd =
      claimedCandidates b64decode sha256 secret := by
    intro secret
    unfold prepare_jwe_key claimedCandidates
    cases hb : b64decode (paddedSecret secret) with
    | none =>
        by_cases h1 : (utf8Bytes secret).length = 32 <;>
          by_cases h2 : (utf8Bytes secret).length ≥ 32 <;>
            simp [h1, h2]
    | some d =>
        by_cases hd : d.length = 32 <;>
          by_cases h1 : (utf8Bytes secret).length = 32 <;>
            by_cases h2 : (utf8Bytes secret).length ≥ 32 <;>
              simp [hd, h1, h2]
  refine ⟨hmap, ?_⟩
  induction secrets with
  | nil => rfl
  | cons s rest ih =>
      unfold decrypt_jwe_token
      rw [tryKeys_eq, hmap s, List.flatMap_cons, List.findSome?_append]
      cases hfs : (claimedCandidates b64decode sha256 s).findSome? attempt with
      | none => rw [ih]; rfl
      | some j => rfl

end McpAuth



